import Mathlib

/-!
# Verification of the basta-ferry order/payment core

Shallow embedding of the cart/order state machine of `src/core/views.py`:
catalog items, per-user order items, orders, coupons, payments and refunds,
together with the view handlers `add_to_cart`, `remove_from_cart`,
`remove_single_item_from_cart`, `add_coupon`, `CheckoutView.post`,
`create_order`, `verify_payment` and `RequestRefundView.post`.

Django persistence is modelled as explicit lists of records inside a `Store`;
`Model.objects.get` is modelled by `djGet`, which distinguishes the
`DoesNotExist` and `MultipleObjectsReturned` outcomes exactly as Django does.
Randomness (`random.choices` in `create_ref_code`) is modelled by an explicit
stream of naturals, and the gateway's signature check
(`client.utility.verify_payment_signature`) by a boolean-valued parameter.
-/

namespace BastaFerry

/-- A catalog entry (`core.models.Item` as used by the views): slug is the
lookup key, `isActive` mirrors the `is_active` flag. -/
structure Item where
  slug : String
  price : Int
  isActive : Bool
deriving DecidableEq

/-- A `(user, item)` cart line (`core.models.OrderItem`): quantity counter and
the `ordered` flag the views filter on. -/
structure OrderItem where
  id : Nat
  user : Nat
  itemSlug : String
  quantity : Nat
  ordered : Bool
deriving DecidableEq

/-- A coupon (`core.models.Coupon`): unique code plus discount amount. -/
structure Coupon where
  code : String
  amount : Int
deriving DecidableEq

/-- A billing address created by `CheckoutView.post`. -/
structure BillingAddress where
  user : Nat
  streetAddress : String
  apartmentAddress : String
  country : String
  zip : String
deriving DecidableEq

/-- A completed gateway transaction record created by `verify_payment`. -/
structure Payment where
  id : Nat
  user : Nat
  razorpayPaymentId : String
  amount : Int
deriving DecidableEq

/-- An order (`core.models.Order`): `items` holds the ids of the linked
`OrderItem` rows (the many-to-many table), `ordered = false` means active
cart, `refCode` is assigned only at finalization. -/
structure Order where
  id : Nat
  user : Nat
  items : List Nat
  ordered : Bool
  billingAddress : Option BillingAddress
  coupon : Option Coupon
  payment : Option Nat
  refCode : Option String
  refundRequested : Bool
deriving DecidableEq

/-- A refund request record created by `RequestRefundView.post`. -/
structure Refund where
  orderId : Nat
  reason : String
  email : String
deriving DecidableEq

/-- The persistent store: one list per Django model, plus a fresh-id counter
standing for the database's autoincrement keys. -/
structure Store where
  catalog : List Item
  coupons : List Coupon
  orderItems : List OrderItem
  orders : List Order
  payments : List Payment
  refunds : List Refund
  nextId : Nat
deriving DecidableEq

/-- The observable outcome of one request: a redirect carrying the flashed
message, a JSON body, a 400 body, a 404 page, an exception that no handler
catches (Django's 500), or a handler that falls through returning `None`. -/
inductive Response where
  | redirect (target msg : String)
  | json (body : String)
  | badRequest (body : String)
  | notFound404
  | unhandled (exn : String)
  | none
deriving DecidableEq

/-- `true` exactly on the outcomes that are recovered at the request boundary
and shown to the user (redirect/JSON/400/404); `false` on an uncaught
exception or a missing return value. -/
def Response.isHandled : Response → Bool
  | .redirect _ _ => true
  | .json _ => true
  | .badRequest _ => true
  | .notFound404 => true
  | .unhandled _ => false
  | .none => false

/-- Result of Django's `Model.objects.get`: the unique match, or the
`DoesNotExist` / `MultipleObjectsReturned` exceptions. -/
inductive GetResult (α : Type) where
  | found : α → GetResult α
  | notFound : GetResult α
  | multiple : GetResult α
deriving DecidableEq

/-- `Model.objects.get(**filter)`. -/
def djGet {α : Type} (p : α → Bool) (l : List α) : GetResult α :=
  match l.filter p with
  | [] => .notFound
  | [a] => .found a
  | _ => .multiple

/-- The filter `Order.objects.filter(user=u, ordered=False)` used all over
`views.py` for the active cart. -/
def isActiveFor (u : Nat) (o : Order) : Bool :=
  o.user == u && o.ordered == false

/-- The filter `OrderItem.objects.filter(item=item, user=u, ordered=False)`
behind `get_or_create` and the `get` calls in the remove views. -/
def isUnorderedItemFor (u : Nat) (slug : String) (oi : OrderItem) : Bool :=
  oi.user == u && oi.itemSlug == slug && oi.ordered == false

/-- `Order.objects.filter(user=u, ordered=False)[0]` / `.first()`. -/
def firstActiveOrder (s : Store) (u : Nat) : Option Order :=
  (s.orders.filter (isActiveFor u)).head?

/-- `order.items.filter(item__slug=slug).exists()`. -/
def orderHasSlug (s : Store) (o : Order) (slug : String) : Bool :=
  s.orderItems.any (fun oi => o.items.contains oi.id && oi.itemSlug == slug)

/-- Update the order item with the given id (a `save()` on a mutated row). -/
def updateOrderItems (s : Store) (oiId : Nat) (f : OrderItem → OrderItem) : Store :=
  { s with orderItems := s.orderItems.map (fun oi => if oi.id == oiId then f oi else oi) }

/-- Update the order with the given id (a `save()` on a mutated row). -/
def updateOrders (s : Store) (oId : Nat) (f : Order → Order) : Store :=
  { s with orders := s.orders.map (fun o => if o.id == oId then f o else o) }

/-- Django many-to-many `add`: set semantics, a present link is not duplicated. -/
def linkAdd (links : List Nat) (x : Nat) : List Nat :=
  if links.contains x then links else links ++ [x]

/-- `order_item.delete()`: removes the row and, by cascade on the
many-to-many table, every link any order holds to it. -/
def deleteOrderItem (s : Store) (oiId : Nat) : Store :=
  { s with
    orderItems := s.orderItems.filter (fun oi => oi.id != oiId),
    orders := s.orders.map (fun o => { o with items := o.items.filter (fun i => i != oiId) }) }

/-- The `string.ascii_lowercase + string.digits` alphabet of `create_ref_code`. -/
def refAlphabet : List Char :=
  "abcdefghijklmnopqrstuvwxyz0123456789".toList

/-- `create_ref_code` (`views.py` line 23): 20 draws from the 36-character
alphabet; the random source `random.choices` is modelled by the stream. -/
def create_ref_code (stream : Nat → Nat) : String :=
  String.mk ((List.range 20).map (fun i => refAlphabet.getD (stream i % 36) 'a'))

/-- Price lookup for an order item's slug. -/
def itemPrice (s : Store) (slug : String) : Int :=
  match s.catalog.find? (fun it => it.slug == slug) with
  | some it => it.price
  | Option.none => 0

/-- Modelled from the spec: `Order.get_total` lives in `core/models.py`,
which is not under `src/`. Per the spec (data model and the section 8
scenario "2 × 10.00, no coupon, total 20.00"): the sum of item price times
quantity over the order's linked OrderItems, minus the coupon's discount
amount when a coupon is attached. -/
def getTotal (s : Store) (o : Order) : Int :=
  ((s.orderItems.filter (fun oi => o.items.contains oi.id)).map
      (fun oi => itemPrice s oi.itemSlug * (oi.quantity : Int))).sum
    - (match o.coupon with | some c => c.amount | Option.none => 0)

/-- The order `Order.objects.create(user=u, ordered_date=now)` builds before
`order.items.add(order_item)` attaches the single line. -/
def freshOrder (s : Store) (u : Nat) (oiId : Nat) : Order :=
  { id := s.nextId, user := u, items := [oiId], ordered := false,
    billingAddress := Option.none, coupon := Option.none, payment := Option.none,
    refCode := Option.none, refundRequested := false }

/-- The row `OrderItem.objects.get_or_create(item, user, ordered=False)`
creates on a miss; the default quantity of 1 is modelled from the spec
("quantity incremented on repeat adds", "adding the same item twice yields
quantity=2"), `core/models.py` not being under `src/`. -/
def freshOrderItem (s : Store) (u : Nat) (slug : String) : OrderItem :=
  { id := s.nextId, user := u, itemSlug := slug, quantity := 1, ordered := false }

/-- Second half of `add_to_cart` (`views.py` lines 166-180): the
`order_qs` branch structure. `oiId` is the id of the `order_item` row the
preceding `get_or_create` returned, which is the row the increment mutates. -/
def addToActiveOrder (s : Store) (u : Nat) (slug : String) (oiId : Nat) : Store × Response :=
  match firstActiveOrder s u with
  | some order =>
    if orderHasSlug s order slug then
      (updateOrderItems s oiId (fun oi => { oi with quantity := oi.quantity + 1 }),
       .redirect "core:order-summary" "Item added to cart")
    else
      (updateOrders s order.id (fun o => { o with items := linkAdd o.items oiId }),
       .redirect "core:order-summary" "Item added to cart")
  | Option.none =>
    ({ s with orders := s.orders ++ [freshOrder s u oiId], nextId := s.nextId + 1 },
     .redirect "core:order-summary" "Item added to cart")

/-- `add_to_cart` (`views.py` lines 161-180), with `get_object_or_404` and
`get_or_create` expanded. -/
def add_to_cart (s : Store) (u : Nat) (slug : String) : Store × Response :=
  match djGet (fun it => it.slug == slug) s.catalog with
  | .notFound => (s, .notFound404)
  | .multiple => (s, .unhandled "Item.MultipleObjectsReturned")
  | .found _item =>
    match djGet (isUnorderedItemFor u slug) s.orderItems with
    | .multiple => (s, .unhandled "OrderItem.MultipleObjectsReturned")
    | .found oi => addToActiveOrder s u slug oi.id
    | .notFound =>
      addToActiveOrder
        { s with orderItems := s.orderItems ++ [freshOrderItem s u slug],
                 nextId := s.nextId + 1 } u slug (freshOrderItem s u slug).id

/-- `remove_from_cart` (`views.py` lines 183-195): unlink the row from the
order, then delete the row itself. -/
def remove_from_cart (s : Store) (u : Nat) (slug : String) : Store × Response :=
  match djGet (fun it => it.slug == slug) s.catalog with
  | .notFound => (s, .notFound404)
  | .multiple => (s, .unhandled "Item.MultipleObjectsReturned")
  | .found _item =>
    match firstActiveOrder s u with
    | some order =>
      if orderHasSlug s order slug then
        match djGet (isUnorderedItemFor u slug) s.orderItems with
        | .notFound => (s, .unhandled "OrderItem.DoesNotExist")
        | .multiple => (s, .unhandled "OrderItem.MultipleObjectsReturned")
        | .found oi =>
          (deleteOrderItem
            (updateOrders s order.id
              (fun o => { o with items := o.items.filter (fun i => i != oi.id) })) oi.id,
           .redirect "core:order-summary" "Item removed from your cart")
      else (s, .redirect ("core:product:" ++ slug) "Item not in your cart")
    | Option.none => (s, .redirect ("core:product:" ++ slug) "Item not in your cart")

/-- `remove_single_item_from_cart` (`views.py` lines 198-213): decrement when
`quantity > 1`; otherwise only `order.items.remove(order_item)` runs — the
`OrderItem` row itself is not deleted. -/
def remove_single_item_from_cart (s : Store) (u : Nat) (slug : String) : Store × Response :=
  match djGet (fun it => it.slug == slug) s.catalog with
  | .notFound => (s, .notFound404)
  | .multiple => (s, .unhandled "Item.MultipleObjectsReturned")
  | .found _item =>
    match firstActiveOrder s u with
    | some order =>
      if orderHasSlug s order slug then
        match djGet (isUnorderedItemFor u slug) s.orderItems with
        | .notFound => (s, .unhandled "OrderItem.DoesNotExist")
        | .multiple => (s, .unhandled "OrderItem.MultipleObjectsReturned")
        | .found oi =>
          if oi.quantity > 1 then
            (updateOrderItems s oi.id (fun x => { x with quantity := x.quantity - 1 }),
             .redirect "core:order-summary" "Item quantity updated")
          else
            (updateOrders s order.id
              (fun o => { o with items := o.items.filter (fun i => i != oi.id) }),
             .redirect "core:order-summary" "Item quantity updated")
      else (s, .redirect ("core:product:" ++ slug) "Item not in your cart")
    | Option.none => (s, .redirect ("core:product:" ++ slug) "Item not in your cart")

/-- `add_coupon` (`views.py` lines 216-231). `valid` is the outcome of
`CouponForm.is_valid()` (`core/forms.py` is not under `src/`; an invalid
form or a non-POST request falls off the end of the Python function,
returning `None`). The active order is fetched before the coupon, and
`ObjectDoesNotExist` from either `get` lands in the same `except`. -/
def add_coupon (s : Store) (u : Nat) (valid : Bool) (code : String) : Store × Response :=
  if valid then
    match djGet (isActiveFor u) s.orders with
    | .notFound => (s, .redirect "core:checkout" "Invalid coupon")
    | .multiple => (s, .unhandled "Order.MultipleObjectsReturned")
    | .found order =>
      match djGet (fun c => c.code == code) s.coupons with
      | .notFound => (s, .redirect "core:checkout" "Invalid coupon")
      | .multiple => (s, .unhandled "Coupon.MultipleObjectsReturned")
      | .found c =>
        (updateOrders s order.id (fun o => { o with coupon := some c }),
         .redirect "core:checkout" "Coupon applied")
  else (s, .none)

/-- The fields `CheckoutView.post` reads from `CheckoutForm`, plus the
outcome of `is_valid()` (the form class is not under `src/`). -/
structure CheckoutData where
  valid : Bool
  streetAddress : String
  apartmentAddress : String
  country : String
  zip : String
deriving DecidableEq

/-- `CheckoutView.post` (`views.py` lines 79-98): fetch the active order,
then create and attach a `BillingAddress` when the form validates. -/
def checkout_post (s : Store) (u : Nat) (d : CheckoutData) : Store × Response :=
  match djGet (isActiveFor u) s.orders with
  | .notFound => (s, .redirect "core:order-summary" "")
  | .multiple => (s, .unhandled "Order.MultipleObjectsReturned")
  | .found order =>
    if d.valid then
      let ba : BillingAddress :=
        { user := u, streetAddress := d.streetAddress,
          apartmentAddress := d.apartmentAddress,
          country := d.country, zip := d.zip }
      (updateOrders s order.id (fun o => { o with billingAddress := some ba }),
       .redirect "core:payment" "")
    else (s, .redirect "core:checkout" "Checkout form is not valid.")

/-- The gateway intent request `create_order` sends
(`client.order.create({...})`). -/
structure IntentRequest where
  amount : Int
  currency : String
  paymentCapture : Nat
deriving DecidableEq

/-- `create_order` (`views.py` lines 119-129): the POST body's `amount`
times 100, fixed currency, auto-capture; nothing else is read or written. -/
def create_order (s : Store) (bodyAmount : Int) : Store × IntentRequest :=
  (s, { amount := bodyAmount * 100, currency := "INR", paymentCapture := 1 })

/-- The JSON body `verify_payment` reads. -/
structure VerifyData where
  razorpayOrderId : String
  razorpayPaymentId : String
  razorpaySignature : String
deriving DecidableEq

/-- The row `Payment.objects.create(user, razorpay_payment_id, amount)`
builds inside `verify_payment`: the gateway payment id and the order's
total at finalization time. -/
def freshPayment (s : Store) (u : Nat) (pid : String) (o : Order) : Payment :=
  { id := s.nextId, user := u, razorpayPaymentId := pid, amount := getTotal s o }

/-- The order mutation of `verify_payment`: on the matching row, set
`ordered = True`, link the payment, stamp the reference code. -/
def finalizeOrder (s : Store) (oId : Nat) (code : String) (o2 : Order) : Order :=
  if o2.id == oId then
    { o2 with ordered := true, payment := some s.nextId, refCode := some code }
  else o2

/-- `verify_payment` (`views.py` lines 132-158). `sigOk` is the gateway's
`verify_payment_signature` capability (raises on `false`, which the `except`
clause catches); the `try` block catches nothing else, so
`Order.DoesNotExist` from `Order.objects.get(user, ordered=False)`
propagates uncaught. On success a `Payment` row is created and the order is
marked ordered, linked to it, and stamped with a fresh reference code. -/
def verify_payment (sigOk : String → String → String → Bool) (s : Store) (u : Nat)
    (d : VerifyData) (stream : Nat → Nat) : Store × Response :=
  if sigOk d.razorpayOrderId d.razorpayPaymentId d.razorpaySignature then
    match djGet (isActiveFor u) s.orders with
    | .notFound => (s, .unhandled "Order.DoesNotExist")
    | .multiple => (s, .unhandled "Order.MultipleObjectsReturned")
    | .found o =>
      ({ s with
          payments := s.payments ++ [freshPayment s u d.razorpayPaymentId o],
          orders := s.orders.map (finalizeOrder s o.id (create_ref_code stream)),
          nextId := s.nextId + 1 },
       .json "Payment verified successfully")
  else (s, .badRequest "Invalid Signature")

/-- `RequestRefundView.post` (`views.py` lines 239-258), the valid-form
path (`RefundForm` lives in `core/forms.py`, not under `src/`): look the
order up by reference code, flag it, and record the refund request. -/
def request_refund (s : Store) (rc reason email : String) : Store × Response :=
  match djGet (fun o => o.refCode == some rc) s.orders with
  | .notFound => (s, .redirect "core:request-refund" "Order not found.")
  | .multiple => (s, .unhandled "Order.MultipleObjectsReturned")
  | .found order =>
    ({ (updateOrders s order.id (fun o => { o with refundRequested := true })) with
        refunds := s.refunds ++ [{ orderId := order.id, reason := reason, email := email }] },
     .redirect "core:request-refund" "Refund request received.")

/-- One inbound request against the core, with its external inputs (form
validity bits, the gateway's verdict, the random stream) carried alongside. -/
inductive Op where
  | addToCart (u : Nat) (slug : String)
  | removeFromCart (u : Nat) (slug : String)
  | removeOne (u : Nat) (slug : String)
  | addCoupon (u : Nat) (valid : Bool) (code : String)
  | checkout (u : Nat) (d : CheckoutData)
  | verifyPayment (u : Nat) (sigOk : String → String → String → Bool)
      (d : VerifyData) (stream : Nat → Nat)
  | refund (rc reason email : String)

/-- Dispatch one request. -/
def step (s : Store) : Op → Store × Response
  | .addToCart u slug => add_to_cart s u slug
  | .removeFromCart u slug => remove_from_cart s u slug
  | .removeOne u slug => remove_single_item_from_cart s u slug
  | .addCoupon u valid code => add_coupon s u valid code
  | .checkout u d => checkout_post s u d
  | .verifyPayment u sigOk d stream => verify_payment sigOk s u d stream
  | .refund rc reason email => request_refund s rc reason email

/-- Run a sequence of requests, keeping only the store. -/
def run (ops : List Op) (s : Store) : Store :=
  match ops with
  | [] => s
  | op :: rest => run rest (step s op).1

/-- A store with the given catalog and coupon ledger and no order, payment
or refund state: the empty starting point of the order lifecycle. -/
def initStore (catalog : List Item) (coupons : List Coupon) : Store :=
  { catalog := catalog, coupons := coupons, orderItems := [], orders := [],
    payments := [], refunds := [], nextId := 0 }

/-! ## Concrete fixtures used by witnesses and counterexamples -/

/-- A catalog item for concrete scenarios. -/
def mugItem : Item := { slug := "mug", price := 10, isActive := true }

/-- A known coupon for concrete scenarios. -/
def saveCoupon : Coupon := { code := "SAVE", amount := 2 }

/-- The store holding only the mug and the coupon, no order state. -/
def demoStore : Store := initStore [mugItem] [saveCoupon]

/-- A gateway callback body. -/
def demoData : VerifyData :=
  { razorpayOrderId := "ordA", razorpayPaymentId := "payA", razorpaySignature := "sigA" }

/-- A gateway that accepts every signature. -/
def alwaysOk : String → String → String → Bool := fun _ _ _ => true

/-- A gateway that rejects every signature. -/
def alwaysBad : String → String → String → Bool := fun _ _ _ => false

/-- A fixed random source. -/
def zeroStream : Nat → Nat := fun _ => 0

/-- `demoStore` after user 1 added the mug once: one active order (id 1)
holding the order item (id 0, quantity 1). -/
def cartStore : Store := (add_to_cart demoStore 1 "mug").1

/-- The active order of `cartStore`. -/
def activeOrder1 : Order :=
  { id := 1, user := 1, items := [0], ordered := false,
    billingAddress := Option.none, coupon := Option.none, payment := Option.none,
    refCode := Option.none, refundRequested := false }

/-! ## Generic list lemmas -/

/-- Filtering after a map that does not change the predicate's verdict
commutes with the map. -/
theorem filter_map_comm {α : Type} (p : α → Bool) (f : α → α) (l : List α)
    (h : ∀ x, p (f x) = p x) :
    (l.map f).filter p = (l.filter p).map f := by
  induction l with
  | nil => rfl
  | cons a t ih =>
    simp only [List.map_cons, List.filter_cons, h a]
    by_cases hpa : p a = true
    · simp [hpa, ih]
    · simp [hpa, ih]

/-- A map under which no element satisfies the predicate filters to nil. -/
theorem filter_map_eq_nil {α : Type} {p : α → Bool} {f : α → α} {l : List α}
    (h : ∀ x ∈ l, p (f x) = false) : (l.map f).filter p = [] := by
  induction l with
  | nil => rfl
  | cons a t ih =>
    simp only [List.map_cons, List.filter_cons, h a (List.mem_cons_self a t)]
    simp only [Bool.false_eq_true, if_false]
    exact ih (fun x hx => h x (List.mem_cons_of_mem a hx))

/-- A map that can only turn the predicate off never grows the filter. -/
theorem length_filter_map_le {α : Type} (p : α → Bool) (f : α → α) (l : List α)
    (h : ∀ x, p (f x) = true → p x = true) :
    ((l.map f).filter p).length ≤ (l.filter p).length := by
  induction l with
  | nil => exact Nat.le_refl 0
  | cons a t ih =>
    simp only [List.map_cons, List.filter_cons]
    by_cases hfa : p (f a) = true
    · rw [if_pos hfa, if_pos (h a hfa)]
      exact Nat.succ_le_succ ih
    · rw [if_neg hfa]
      by_cases hpa : p a = true
      · rw [if_pos hpa]
        exact Nat.le_succ_of_le ih
      · rw [if_neg hpa]
        exact ih

/-- An empty `head?` means an empty list. -/
theorem head?_none {α : Type} {l : List α} (h : l.head? = Option.none) : l = [] := by
  cases l with
  | nil => rfl
  | cons a t => simp at h

/-- `djGet` finds `a` exactly when the filter is the singleton `[a]`. -/
theorem djGet_found_iff {α : Type} (p : α → Bool) (l : List α) (a : α) :
    djGet p l = .found a ↔ l.filter p = [a] := by
  unfold djGet
  cases hf : l.filter p with
  | nil => simp
  | cons x xs =>
    cases xs with
    | nil => simp
    | cons y ys => simp

/-- `djGet` raises `DoesNotExist` exactly when the filter is empty. -/
theorem djGet_notFound_iff {α : Type} (p : α → Bool) (l : List α) :
    djGet p l = .notFound ↔ l.filter p = [] := by
  unfold djGet
  cases hf : l.filter p with
  | nil => simp
  | cons x xs =>
    cases xs with
    | nil => simp
    | cons y ys => simp

/-- When the filter is a singleton, every satisfying member is that element. -/
theorem filter_singleton_mem {α : Type} {p : α → Bool} {l : List α} {a : α}
    (hf : l.filter p = [a]) : ∀ x ∈ l, p x = true → x = a := by
  intro x hx hpx
  have hmem : x ∈ l.filter p := List.mem_filter.mpr ⟨hx, hpx⟩
  rw [hf] at hmem
  simpa using hmem

/-! ## The at-most-one-active-order invariant -/

/-- Invariant: every user has at most one order with `ordered = false`. -/
def Inv (s : Store) : Prop :=
  ∀ u : Nat, ((s.orders.filter (isActiveFor u)).length) ≤ 1

/-- Mapping the orders with a function that preserves owner and `ordered`
flag preserves the invariant count for every user. -/
theorem filter_length_map_pres (u : Nat) (f : Order → Order) (l : List Order)
    (hu : ∀ o, (f o).user = o.user) (ho : ∀ o, (f o).ordered = o.ordered) :
    ((l.map f).filter (isActiveFor u)).length = (l.filter (isActiveFor u)).length := by
  rw [filter_map_comm (isActiveFor u) f l
      (fun o => by simp [isActiveFor, hu o, ho o])]
  exact List.length_map _ _

/-- `updateOrders` with an owner- and flag-preserving mutation keeps `Inv`. -/
theorem inv_updateOrders (s : Store) (i : Nat) (f : Order → Order)
    (hu : ∀ o, (f o).user = o.user) (ho : ∀ o, (f o).ordered = o.ordered)
    (h : Inv s) : Inv (updateOrders s i f) := by
  intro u
  show (((s.orders.map fun o => if o.id == i then f o else o).filter (isActiveFor u))).length ≤ 1
  rw [filter_length_map_pres u _ s.orders
      (fun o => by by_cases hc : (o.id == i) = true <;> simp [hc, hu o])
      (fun o => by by_cases hc : (o.id == i) = true <;> simp [hc, ho o])]
  exact h u

/-- `deleteOrderItem` keeps `Inv` (it only shrinks `items` lists). -/
theorem inv_deleteOrderItem (s : Store) (oiId : Nat) (h : Inv s) :
    Inv (deleteOrderItem s oiId) := by
  intro u
  show ((s.orders.map (fun o =>
      { o with items := o.items.filter (fun i => i != oiId) })).filter
      (isActiveFor u)).length ≤ 1
  rw [filter_length_map_pres u
      (fun o => { o with items := o.items.filter (fun i => i != oiId) })
      s.orders (fun o => rfl) (fun o => rfl)]
  exact h u

/-- `addToActiveOrder` keeps `Inv`: it creates an order only when the user
has none, and otherwise never touches owners or `ordered` flags. -/
theorem inv_addToActiveOrder (s : Store) (u : Nat) (slug : String) (oiId : Nat)
    (h : Inv s) : Inv (addToActiveOrder s u slug oiId).1 := by
  unfold addToActiveOrder
  cases hfo : firstActiveOrder s u with
  | some order =>
    dsimp only
    by_cases hs : orderHasSlug s order slug = true
    · rw [if_pos hs]
      exact h
    · rw [if_neg hs]
      exact inv_updateOrders s order.id _ (fun o => rfl) (fun o => rfl) h
  | none =>
    have hnil : s.orders.filter (isActiveFor u) = [] := by
      have h2 : (s.orders.filter (isActiveFor u)).head? = Option.none := hfo
      exact head?_none h2
    intro v
    show ((s.orders ++ [freshOrder s u oiId]).filter (isActiveFor v)).length ≤ 1
    rw [List.filter_append]
    by_cases hv : v = u
    · subst hv
      rw [hnil]
      simp [isActiveFor, freshOrder]
    · have hne : (u == v) = false := by
        simp only [beq_eq_false_iff_ne, ne_eq]
        exact fun e => hv e.symm
      have hone : ([freshOrder s u oiId].filter (isActiveFor v)) = [] := by
        simp [isActiveFor, freshOrder, hne]
      rw [hone, List.append_nil]
      exact h v

/-- `add_to_cart` keeps `Inv`. -/
theorem inv_add_to_cart (s : Store) (u : Nat) (slug : String) (h : Inv s) :
    Inv (add_to_cart s u slug).1 := by
  unfold add_to_cart
  cases h1 : djGet (fun it => it.slug == slug) s.catalog with
  | notFound => exact h
  | multiple => exact h
  | found item =>
    cases h2 : djGet (isUnorderedItemFor u slug) s.orderItems with
    | multiple => exact h
    | found oi => exact inv_addToActiveOrder s u slug oi.id h
    | notFound => exact inv_addToActiveOrder _ u slug _ h

/-- `remove_from_cart` keeps `Inv`. -/
theorem inv_remove_from_cart (s : Store) (u : Nat) (slug : String) (h : Inv s) :
    Inv (remove_from_cart s u slug).1 := by
  unfold remove_from_cart
  cases h1 : djGet (fun it => it.slug == slug) s.catalog with
  | notFound => exact h
  | multiple => exact h
  | found item =>
    cases hfo : firstActiveOrder s u with
    | none => exact h
    | some order =>
      dsimp only
      by_cases hs : orderHasSlug s order slug = true
      · rw [if_pos hs]
        cases h2 : djGet (isUnorderedItemFor u slug) s.orderItems with
        | notFound => exact h
        | multiple => exact h
        | found oi =>
          exact inv_deleteOrderItem _ oi.id
            (inv_updateOrders s order.id _ (fun o => rfl) (fun o => rfl) h)
      · rw [if_neg hs]
        exact h

/-- `remove_single_item_from_cart` keeps `Inv`. -/
theorem inv_remove_single (s : Store) (u : Nat) (slug : String) (h : Inv s) :
    Inv (remove_single_item_from_cart s u slug).1 := by
  unfold remove_single_item_from_cart
  cases h1 : djGet (fun it => it.slug == slug) s.catalog with
  | notFound => exact h
  | multiple => exact h
  | found item =>
    cases hfo : firstActiveOrder s u with
    | none => exact h
    | some order =>
      dsimp only
      by_cases hs : orderHasSlug s order slug = true
      · rw [if_pos hs]
        cases h2 : djGet (isUnorderedItemFor u slug) s.orderItems with
        | notFound => exact h
        | multiple => exact h
        | found oi =>
          dsimp only
          by_cases hq : oi.quantity > 1
          · rw [if_pos hq]
            exact h
          · rw [if_neg hq]
            exact inv_updateOrders s order.id _ (fun o => rfl) (fun o => rfl) h
      · rw [if_neg hs]
        exact h

/-- `add_coupon` keeps `Inv`. -/
theorem inv_add_coupon (s : Store) (u : Nat) (valid : Bool) (code : String)
    (h : Inv s) : Inv (add_coupon s u valid code).1 := by
  unfold add_coupon
  cases valid with
  | false => exact h
  | true =>
    simp only [if_true]
    cases h1 : djGet (isActiveFor u) s.orders with
    | notFound => exact h
    | multiple => exact h
    | found order =>
      cases h2 : djGet (fun c => c.code == code) s.coupons with
      | notFound => exact h
      | multiple => exact h
      | found c =>
        exact inv_updateOrders s order.id _ (fun o => rfl) (fun o => rfl) h

/-- `checkout_post` keeps `Inv`. -/
theorem inv_checkout_post (s : Store) (u : Nat) (d : CheckoutData) (h : Inv s) :
    Inv (checkout_post s u d).1 := by
  unfold checkout_post
  cases h1 : djGet (isActiveFor u) s.orders with
  | notFound => exact h
  | multiple => exact h
  | found order =>
    dsimp only
    by_cases hv : d.valid = true
    · rw [if_pos hv]
      exact inv_updateOrders s order.id _ (fun o => rfl) (fun o => rfl) h
    · rw [if_neg hv]
      exact h

/-- `verify_payment` keeps `Inv`: it only ever turns `ordered` on. -/
theorem inv_verify_payment (sigOk : String → String → String → Bool) (s : Store)
    (u : Nat) (d : VerifyData) (stream : Nat → Nat) (h : Inv s) :
    Inv (verify_payment sigOk s u d stream).1 := by
  unfold verify_payment
  by_cases hsig : sigOk d.razorpayOrderId d.razorpayPaymentId d.razorpaySignature = true
  · rw [if_pos hsig]
    cases hg : djGet (isActiveFor u) s.orders with
    | notFound => exact h
    | multiple => exact h
    | found o =>
      intro v
      show ((s.orders.map (finalizeOrder s o.id (create_ref_code stream))).filter
          (isActiveFor v)).length ≤ 1
      refine Nat.le_trans
        (length_filter_map_le (isActiveFor v) (finalizeOrder s o.id (create_ref_code stream))
          s.orders ?_) (h v)
      intro x hx
      unfold finalizeOrder at hx
      by_cases hid : (x.id == o.id) = true
      · rw [if_pos hid] at hx
        simp [isActiveFor] at hx
      · rwa [if_neg hid] at hx
  · rw [if_neg hsig]
    exact h

/-- `request_refund` keeps `Inv`. -/
theorem inv_request_refund (s : Store) (rc reason email : String) (h : Inv s) :
    Inv (request_refund s rc reason email).1 := by
  unfold request_refund
  cases h1 : djGet (fun o => o.refCode == some rc) s.orders with
  | notFound => exact h
  | multiple => exact h
  | found order =>
    exact inv_updateOrders s order.id _ (fun o => rfl) (fun o => rfl) h

/-- Every single request preserves the invariant. -/
theorem inv_step (s : Store) (op : Op) (h : Inv s) : Inv (step s op).1 := by
  cases op with
  | addToCart u slug => exact inv_add_to_cart s u slug h
  | removeFromCart u slug => exact inv_remove_from_cart s u slug h
  | removeOne u slug => exact inv_remove_single s u slug h
  | addCoupon u valid code => exact inv_add_coupon s u valid code h
  | checkout u d => exact inv_checkout_post s u d h
  | verifyPayment u sigOk d stream => exact inv_verify_payment sigOk s u d stream h
  | refund rc reason email => exact inv_request_refund s rc reason email h

/-- Request sequences preserve the invariant. -/
theorem inv_run (ops : List Op) (s : Store) (h : Inv s) : Inv (run ops s) := by
  induction ops generalizing s with
  | nil => exact h
  | cons op rest ih => exact ih (step s op).1 (inv_step s op h)

/-! ## Evaluation lemmas for `verify_payment` and the reference code -/

/-- With a verified signature and a unique active order, `verify_payment`
computes exactly the finalized store. -/
theorem verify_payment_success_eq (sigOk : String → String → String → Bool)
    (s : Store) (u : Nat) (d : VerifyData) (stream : Nat → Nat) (o : Order)
    (hsig : sigOk d.razorpayOrderId d.razorpayPaymentId d.razorpaySignature = true)
    (hactive : djGet (isActiveFor u) s.orders = .found o) :
    verify_payment sigOk s u d stream =
      ({ s with
          payments := s.payments ++ [freshPayment s u d.razorpayPaymentId o],
          orders := s.orders.map (finalizeOrder s o.id (create_ref_code stream)),
          nextId := s.nextId + 1 },
       .json "Payment verified successfully") := by
  unfold verify_payment
  rw [hsig, hactive]
  rfl

/-- With a verified signature but no active order for the user, the
uncaught `Order.DoesNotExist` propagates and nothing changes. -/
theorem verify_payment_no_active_eq (sigOk : String → String → String → Bool)
    (s : Store) (u : Nat) (d : VerifyData) (stream : Nat → Nat)
    (hsig : sigOk d.razorpayOrderId d.razorpayPaymentId d.razorpaySignature = true)
    (hnone : djGet (isActiveFor u) s.orders = .notFound) :
    verify_payment sigOk s u d stream = (s, .unhandled "Order.DoesNotExist") := by
  unfold verify_payment
  rw [hsig, hnone]
  rfl

/-- The reference code always has 20 characters. -/
theorem create_ref_code_length (stream : Nat → Nat) :
    (create_ref_code stream).length = 20 := by
  show ((List.range 20).map (fun i => refAlphabet.getD (stream i % 36) 'a')).length = 20
  rw [List.length_map, List.length_range]

/-- Every in-range draw from the alphabet is a lowercase letter or digit. -/
theorem refAlphabet_getD_lower_or_digit :
    ∀ k, k < 36 →
      ((refAlphabet.getD k 'a').isLower = true ∨ (refAlphabet.getD k 'a').isDigit = true) := by
  decide

/-- Every character of the reference code is a lowercase letter or digit. -/
theorem create_ref_code_chars (stream : Nat → Nat) :
    ∀ c ∈ (create_ref_code stream).data, c.isLower = true ∨ c.isDigit = true := by
  intro c hc
  have hc2 : c ∈ (List.range 20).map (fun i => refAlphabet.getD (stream i % 36) 'a') := hc
  rw [List.mem_map] at hc2
  obtain ⟨i, _, rfl⟩ := hc2
  exact refAlphabet_getD_lower_or_digit _ (Nat.mod_lt _ (by decide))

/-! ## Claim theorems -/

/-- Claim C1: when the gateway's signature verification rejects the supplied
`(order_id, payment_id, signature)` triple, `verify_payment` returns exactly
the 400-class "Invalid Signature" response and the store is unchanged: no
order's `ordered` flag is mutated, no `Payment` row is created, and no other
state changes. -/
theorem verify_payment_rejected_signature_no_mutation
    (sigOk : String → String → String → Bool) (s : Store) (u : Nat)
    (d : VerifyData) (stream : Nat → Nat)
    (hrej : sigOk d.razorpayOrderId d.razorpayPaymentId d.razorpaySignature = false) :
    verify_payment sigOk s u d stream = (s, .badRequest "Invalid Signature") := by
  unfold verify_payment
  rw [hrej]
  rfl

/-- Witness for C1: the rejecting gateway on a store with an active cart. -/
theorem verify_payment_rejected_signature_no_mutation_witness :
    verify_payment alwaysBad cartStore 1 demoData zeroStream
      = (cartStore, .badRequest "Invalid Signature") :=
  verify_payment_rejected_signature_no_mutation alwaysBad cartStore 1 demoData zeroStream rfl

/-- Claim C3 as stated is false: with a valid signature and no active order,
`verify_payment` does not convert the failure into a user-facing outcome —
`Order.objects.get` raises `Order.DoesNotExist`, the `except` clause catches
only `SignatureVerificationError`, and the request dies with an unhandled
exception. Concretely, on the store with no orders at all the outcome is
`unhandled`, not a handled response. -/
theorem verify_payment_no_active_order_cx :
    djGet (isActiveFor 1) demoStore.orders = .notFound ∧
    (verify_payment alwaysOk demoStore 1 demoData zeroStream).2
      = .unhandled "Order.DoesNotExist" ∧
    Response.isHandled (verify_payment alwaysOk demoStore 1 demoData zeroStream).2 = false := by
  refine ⟨rfl, rfl, rfl⟩

/-- Claim C3 (amended): for every user with no active (`ordered = false`)
order, `verify_payment` under a verified signature fails by raising
`Order.DoesNotExist`; the exception is not recovered at the request boundary
(only `SignatureVerificationError` is caught), so the request ends as an
unhandled exception while the store stays unchanged. -/
theorem verify_payment_no_active_order_unhandled
    (sigOk : String → String → String → Bool) (s : Store) (u : Nat)
    (d : VerifyData) (stream : Nat → Nat)
    (hsig : sigOk d.razorpayOrderId d.razorpayPaymentId d.razorpaySignature = true)
    (hnone : djGet (isActiveFor u) s.orders = .notFound) :
    verify_payment sigOk s u d stream = (s, .unhandled "Order.DoesNotExist") :=
  verify_payment_no_active_eq sigOk s u d stream hsig hnone

/-- Witness for the amended C3. -/
theorem verify_payment_no_active_order_unhandled_witness :
    verify_payment alwaysOk demoStore 1 demoData zeroStream
      = (demoStore, .unhandled "Order.DoesNotExist") :=
  verify_payment_no_active_order_unhandled alwaysOk demoStore 1 demoData zeroStream rfl rfl

/-- Claim C4: starting from a store with no order state, any sequence of the
core operations (add to cart, both removals, coupon application, checkout,
payment verification, refund) leaves every user with at most one order whose
`ordered` flag is false. -/
theorem at_most_one_active_order_per_user
    (catalog : List Item) (coupons : List Coupon) (ops : List Op) (u : Nat) :
    ((run ops (initStore catalog coupons)).orders.filter (isActiveFor u)).length ≤ 1 :=
  inv_run ops (initStore catalog coupons) (fun _ => Nat.zero_le 1) u

/-- Claim C7: on a verified signature with a unique active order,
`verify_payment` creates exactly one `Payment` row holding the gateway
payment id, the order's total and the user; marks that order ordered and
linked to the payment; and stamps it with a reference code of exactly 20
characters, each a lowercase letter or a digit. -/
theorem verify_payment_success_finalizes
    (sigOk : String → String → String → Bool) (s : Store) (u : Nat)
    (d : VerifyData) (stream : Nat → Nat) (o : Order)
    (hsig : sigOk d.razorpayOrderId d.razorpayPaymentId d.razorpaySignature = true)
    (hactive : djGet (isActiveFor u) s.orders = .found o) :
    (verify_payment sigOk s u d stream).2 = .json "Payment verified successfully" ∧
    (verify_payment sigOk s u d stream).1.payments
      = s.payments ++ [freshPayment s u d.razorpayPaymentId o] ∧
    (verify_payment sigOk s u d stream).1.orders
      = s.orders.map (finalizeOrder s o.id (create_ref_code stream)) ∧
    (create_ref_code stream).length = 20 ∧
    (∀ c ∈ (create_ref_code stream).data, c.isLower = true ∨ c.isDigit = true) := by
  rw [verify_payment_success_eq sigOk s u d stream o hsig hactive]
  exact ⟨rfl, rfl, rfl, create_ref_code_length stream, create_ref_code_chars stream⟩

/-- Witness for C7 on the one-item cart. -/
theorem verify_payment_success_finalizes_witness :
    (verify_payment alwaysOk cartStore 1 demoData zeroStream).2
      = .json "Payment verified successfully" ∧
    (verify_payment alwaysOk cartStore 1 demoData zeroStream).1.payments
      = cartStore.payments ++ [freshPayment cartStore 1 demoData.razorpayPaymentId activeOrder1] ∧
    (verify_payment alwaysOk cartStore 1 demoData zeroStream).1.orders
      = cartStore.orders.map (finalizeOrder cartStore activeOrder1.id (create_ref_code zeroStream)) ∧
    (create_ref_code zeroStream).length = 20 ∧
    (∀ c ∈ (create_ref_code zeroStream).data, c.isLower = true ∨ c.isDigit = true) :=
  verify_payment_success_finalizes alwaysOk cartStore 1 demoData zeroStream activeOrder1
    rfl (by decide)

/-- Claim C9: a refund request with a reference code no order carries leaves
the store untouched and reports "Order not found." with no `Refund` row;
with the (unique — reference codes are unique by the data model) order
carrying that code, it flags that order's `refund_requested` and appends
exactly one `Refund` row linking the reason and email to the order. -/
theorem request_refund_spec (s : Store) (rc reason email : String) :
    match djGet (fun o => o.refCode == some rc) s.orders with
    | .notFound =>
        request_refund s rc reason email
          = (s, .redirect "core:request-refund" "Order not found.")
    | .found order =>
        request_refund s rc reason email
          = ({ (updateOrders s order.id (fun o => { o with refundRequested := true })) with
                refunds := s.refunds ++
                  [{ orderId := order.id, reason := reason, email := email }] },
             .redirect "core:request-refund" "Refund request received.")
    | .multiple =>
        request_refund s rc reason email
          = (s, .unhandled "Order.MultipleObjectsReturned") := by
  unfold request_refund
  cases djGet (fun o => o.refCode == some rc) s.orders <;> rfl

/-- Claim C10: the intent request `create_order` sends to the gateway is
exactly 100 times the caller-supplied body amount and depends only on the
request body, never on the requesting user's orders or totals: two calls
with the same body produce the same intent request from any two stores, and
the store is never touched. -/
theorem create_order_amount_from_body_only (s1 s2 : Store) (a : Int) :
    (create_order s1 a).2 = (create_order s2 a).2 ∧
    (create_order s1 a).2.amount = 100 * a ∧
    (create_order s1 a).1 = s1 := by
  refine ⟨rfl, ?_, rfl⟩
  show a * 100 = 100 * a
  exact Int.mul_comm a 100

/-- After finalization, the user whose unique active order was finalized has
no active order left: every mapped order either got `ordered := true` or was
already not active (because the filter was the singleton `[o]`). -/
theorem no_active_after_finalize (s : Store) (u : Nat) (o : Order) (code : String)
    (hactive : djGet (isActiveFor u) s.orders = .found o) :
    djGet (isActiveFor u) (s.orders.map (finalizeOrder s o.id code)) = .notFound := by
  apply (djGet_notFound_iff _ _).mpr
  apply filter_map_eq_nil
  intro x hx
  unfold finalizeOrder
  by_cases hid : (x.id == o.id) = true
  · rw [if_pos hid]
    simp [isActiveFor]
  · rw [if_neg hid]
    cases hax : isActiveFor u x with
    | false => rfl
    | true =>
      exfalso
      apply hid
      rw [filter_singleton_mem ((djGet_found_iff _ _ _).mp hactive) x hx hax]
      exact beq_self_eq_true o.id

/-- Claim C2: against a user whose only active order has just been finalized
by a first `verify_payment` call, a second call with the same valid payment
data changes nothing — in particular it creates no second `Payment` row, so
exactly one `Payment` for that gateway payment id and user exists after both
calls (given none existed before). -/
theorem verify_payment_second_call_creates_no_payment
    (sigOk : String → String → String → Bool) (s : Store) (u : Nat)
    (d : VerifyData) (stream1 stream2 : Nat → Nat) (o : Order)
    (hsig : sigOk d.razorpayOrderId d.razorpayPaymentId d.razorpaySignature = true)
    (hactive : djGet (isActiveFor u) s.orders = .found o)
    (hfresh : s.payments.filter
      (fun p => p.user == u && p.razorpayPaymentId == d.razorpayPaymentId) = []) :
    (verify_payment sigOk (verify_payment sigOk s u d stream1).1 u d stream2).1
      = (verify_payment sigOk s u d stream1).1 ∧
    ((verify_payment sigOk (verify_payment sigOk s u d stream1).1 u d stream2).1.payments.filter
      (fun p => p.user == u && p.razorpayPaymentId == d.razorpayPaymentId)).length = 1 := by
  rw [verify_payment_success_eq sigOk s u d stream1 o hsig hactive]
  rw [verify_payment_no_active_eq sigOk _ u d stream2 hsig
      (no_active_after_finalize s u o (create_ref_code stream1) hactive)]
  refine ⟨rfl, ?_⟩
  show ((s.payments ++ [freshPayment s u d.razorpayPaymentId o]).filter
      (fun p => p.user == u && p.razorpayPaymentId == d.razorpayPaymentId)).length = 1
  rw [List.filter_append, hfresh]
  simp [freshPayment]

/-- Witness for C2 on the one-item cart. -/
theorem verify_payment_second_call_creates_no_payment_witness :
    (verify_payment alwaysOk (verify_payment alwaysOk cartStore 1 demoData zeroStream).1
        1 demoData zeroStream).1
      = (verify_payment alwaysOk cartStore 1 demoData zeroStream).1 ∧
    ((verify_payment alwaysOk (verify_payment alwaysOk cartStore 1 demoData zeroStream).1
        1 demoData zeroStream).1.payments.filter
      (fun p => p.user == 1 && p.razorpayPaymentId == demoData.razorpayPaymentId)).length = 1 :=
  verify_payment_second_call_creates_no_payment alwaysOk cartStore 1 demoData
    zeroStream zeroStream activeOrder1 rfl (by decide) (by decide)

/-- Claim C8: for a user with a (unique) active order, `add_coupon` with a
code matching no coupon leaves the store — in particular the order's coupon
slot — unchanged and produces the "Invalid coupon" warning redirect; with a
code resolving to a coupon it writes that coupon into the active order's
single slot, overwriting whatever was there (last write wins). -/
theorem add_coupon_spec (s : Store) (u : Nat) (code : String) (order : Order)
    (hord : djGet (isActiveFor u) s.orders = .found order) :
    (djGet (fun c => c.code == code) s.coupons = .notFound →
      add_coupon s u true code = (s, .redirect "core:checkout" "Invalid coupon")) ∧
    (∀ c : Coupon, djGet (fun c2 => c2.code == code) s.coupons = .found c →
      add_coupon s u true code
        = (updateOrders s order.id (fun o => { o with coupon := some c }),
           .redirect "core:checkout" "Coupon applied")) := by
  constructor
  · intro hc
    unfold add_coupon
    rw [hord, hc]
    rfl
  · intro c hc
    unfold add_coupon
    rw [hord, hc]
    rfl

/-- Witness for C8: unknown code "NOPE" versus the known code "SAVE". -/
theorem add_coupon_spec_witness :
    (add_coupon cartStore 1 true "NOPE"
      = (cartStore, .redirect "core:checkout" "Invalid coupon")) ∧
    (add_coupon cartStore 1 true "SAVE"
      = (updateOrders cartStore activeOrder1.id (fun o => { o with coupon := some saveCoupon }),
         .redirect "core:checkout" "Coupon applied")) :=
  ⟨(add_coupon_spec cartStore 1 "NOPE" activeOrder1 (by decide)).1 (by decide),
   (add_coupon_spec cartStore 1 "SAVE" activeOrder1 (by decide)).2 saveCoupon (by decide)⟩

/-! ## The two-adds scenario (C5) and single-unit removal (C6) -/

/-- The order created by the first `add_to_cart` on a user with no active
order: it receives the id after the fresh order item's and links that item. -/
def freshOrderAfterItem (s : Store) (u : Nat) : Order :=
  { id := s.nextId + 1, user := u, items := [s.nextId], ordered := false,
    billingAddress := Option.none, coupon := Option.none, payment := Option.none,
    refCode := Option.none, refundRequested := false }

/-- The store after a first `add_to_cart` from a state with no active order
and no unordered row for the slug. -/
def storeAfterFirstAdd (s : Store) (u : Nat) (slug : String) : Store :=
  { s with orderItems := s.orderItems ++ [freshOrderItem s u slug],
           orders := s.orders ++ [freshOrderAfterItem s u],
           nextId := s.nextId + 2 }

/-- First add from a clean state: creates the row and the order. -/
theorem add_to_cart_first_eq (s : Store) (u : Nat) (slug : String) (item : Item)
    (hitem : djGet (fun it => it.slug == slug) s.catalog = .found item)
    (hnoord : s.orders.filter (isActiveFor u) = [])
    (hnooi : s.orderItems.filter (isUnorderedItemFor u slug) = []) :
    add_to_cart s u slug =
      (storeAfterFirstAdd s u slug,
       .redirect "core:order-summary" "Item added to cart") := by
  unfold add_to_cart
  rw [hitem]
  dsimp only
  rw [(djGet_notFound_iff _ _).mpr hnooi]
  dsimp only
  unfold addToActiveOrder
  have hfo : firstActiveOrder
      { s with orderItems := s.orderItems ++ [freshOrderItem s u slug],
               nextId := s.nextId + 1 } u = Option.none := by
    show (s.orders.filter (isActiveFor u)).head? = Option.none
    rw [hnoord]
    rfl
  rw [hfo]
  rfl

/-- Second add from the post-first-add state: finds the row, finds the
active order, sees the slug attached, and increments the found row. -/
theorem add_to_cart_second_eq (s : Store) (u : Nat) (slug : String) (item : Item)
    (hitem : djGet (fun it => it.slug == slug) s.catalog = .found item)
    (hnoord : s.orders.filter (isActiveFor u) = [])
    (hnooi : s.orderItems.filter (isUnorderedItemFor u slug) = []) :
    add_to_cart (storeAfterFirstAdd s u slug) u slug =
      (updateOrderItems (storeAfterFirstAdd s u slug) s.nextId
        (fun oi => { oi with quantity := oi.quantity + 1 }),
       .redirect "core:order-summary" "Item added to cart") := by
  have hoi2 : djGet (isUnorderedItemFor u slug)
      (s.orderItems ++ [freshOrderItem s u slug]) = .found (freshOrderItem s u slug) := by
    apply (djGet_found_iff _ _ _).mpr
    rw [List.filter_append, hnooi]
    simp [isUnorderedItemFor, freshOrderItem]
  have hfo2 : firstActiveOrder (storeAfterFirstAdd s u slug) u
      = some (freshOrderAfterItem s u) := by
    show ((s.orders ++ [freshOrderAfterItem s u]).filter (isActiveFor u)).head?
      = some (freshOrderAfterItem s u)
    rw [List.filter_append, hnoord]
    simp [isActiveFor, freshOrderAfterItem]
  have hhas : orderHasSlug (storeAfterFirstAdd s u slug) (freshOrderAfterItem s u) slug
      = true := by
    show ((s.orderItems ++ [freshOrderItem s u slug]).any
      (fun oi => (freshOrderAfterItem s u).items.contains oi.id && oi.itemSlug == slug)) = true
    rw [List.any_append]
    simp [freshOrderItem, freshOrderAfterItem]
  unfold add_to_cart
  rw [show djGet (fun it => it.slug == slug) (storeAfterFirstAdd s u slug).catalog
      = .found item from hitem]
  dsimp only
  rw [show djGet (isUnorderedItemFor u slug) (storeAfterFirstAdd s u slug).orderItems
      = .found (freshOrderItem s u slug) from hoi2]
  dsimp only
  unfold addToActiveOrder
  rw [hfo2]
  dsimp only
  rw [if_pos hhas]
  rfl

/-- Counterexample to claim C5 as stated: a user whose cart is empty (no
active order) but who previously finalized a purchase of two mugs still has
the unordered OrderItem row for the mug — `verify_payment` never marks
OrderItems as ordered — so two fresh `add_to_cart` calls for the mug
re-attach that row and leave it at quantity 3, not 2. -/
theorem add_to_cart_twice_quantity_cx :
    (run [Op.addToCart 1 "mug", Op.addToCart 1 "mug",
      Op.verifyPayment 1 alwaysOk demoData zeroStream] demoStore).orders.filter
        (isActiveFor 1) = ([] : List Order) ∧
    djGet (fun it => it.slug == "mug")
      (run [Op.addToCart 1 "mug", Op.addToCart 1 "mug",
        Op.verifyPayment 1 alwaysOk demoData zeroStream] demoStore).catalog
      = .found mugItem ∧
    ((run [Op.addToCart 1 "mug", Op.addToCart 1 "mug"]
        (run [Op.addToCart 1 "mug", Op.addToCart 1 "mug",
          Op.verifyPayment 1 alwaysOk demoData zeroStream] demoStore)).orderItems.filter
        (isUnorderedItemFor 1 "mug")).map OrderItem.quantity = [3] ∧
    ¬ (((run [Op.addToCart 1 "mug", Op.addToCart 1 "mug"]
        (run [Op.addToCart 1 "mug", Op.addToCart 1 "mug",
          Op.verifyPayment 1 alwaysOk demoData zeroStream] demoStore)).orderItems.filter
        (isUnorderedItemFor 1 "mug")).map OrderItem.quantity = [2]) := by
  refine ⟨rfl, rfl, rfl, by decide⟩

/-- Claim C5 (amended): for every user with no active order AND no leftover
unordered OrderItem for the slug (a leftover survives finalization, see the
counterexample), two `add_to_cart` calls for a known slug yield exactly one
unordered OrderItem for (user, item), with quantity 2, attached to the
user's single active order. -/
theorem add_to_cart_twice_one_row_qty_two
    (s : Store) (u : Nat) (slug : String) (item : Item)
    (hitem : djGet (fun it => it.slug == slug) s.catalog = .found item)
    (hnoord : s.orders.filter (isActiveFor u) = [])
    (hnooi : s.orderItems.filter (isUnorderedItemFor u slug) = []) :
    ((add_to_cart (add_to_cart s u slug).1 u slug).1.orderItems.filter
        (isUnorderedItemFor u slug))
      = [{ id := s.nextId, user := u, itemSlug := slug, quantity := 2, ordered := false }] ∧
    ((add_to_cart (add_to_cart s u slug).1 u slug).1.orders.filter (isActiveFor u))
      = [freshOrderAfterItem s u] := by
  rw [add_to_cart_first_eq s u slug item hitem hnoord hnooi]
  dsimp only
  rw [add_to_cart_second_eq s u slug item hitem hnoord hnooi]
  dsimp only
  constructor
  · show (((s.orderItems ++ [freshOrderItem s u slug]).map
        (fun oi => if oi.id == s.nextId then { oi with quantity := oi.quantity + 1 } else oi)).filter
        (isUnorderedItemFor u slug))
      = [{ id := s.nextId, user := u, itemSlug := slug, quantity := 2, ordered := false }]
    rw [filter_map_comm (isUnorderedItemFor u slug)
        (fun oi => if oi.id == s.nextId then { oi with quantity := oi.quantity + 1 } else oi)
        (s.orderItems ++ [freshOrderItem s u slug])
        (fun x => by by_cases hx : (x.id == s.nextId) = true <;> simp [hx, isUnorderedItemFor])]
    rw [List.filter_append, hnooi]
    simp [isUnorderedItemFor, freshOrderItem]
  · show ((s.orders ++ [freshOrderAfterItem s u]).filter (isActiveFor u))
      = [freshOrderAfterItem s u]
    rw [List.filter_append, hnoord]
    simp [isActiveFor, freshOrderAfterItem]

/-- Witness for the amended C5 on the clean demo store. -/
theorem add_to_cart_twice_one_row_qty_two_witness :
    ((add_to_cart (add_to_cart demoStore 1 "mug").1 1 "mug").1.orderItems.filter
        (isUnorderedItemFor 1 "mug"))
      = [{ id := demoStore.nextId, user := 1, itemSlug := "mug", quantity := 2,
           ordered := false }] ∧
    ((add_to_cart (add_to_cart demoStore 1 "mug").1 1 "mug").1.orders.filter (isActiveFor 1))
      = [freshOrderAfterItem demoStore 1] :=
  add_to_cart_twice_one_row_qty_two demoStore 1 "mug" mugItem rfl rfl rfl

/-- `cartStore` after a second add of the mug: quantity 2 on row 0. -/
def cartStore2 : Store := (add_to_cart cartStore 1 "mug").1

/-- The quantity-2 mug row of `cartStore2`. -/
def mugLine2 : OrderItem :=
  { id := 0, user := 1, itemSlug := "mug", quantity := 2, ordered := false }

/-- Counterexample to claim C6 as stated: removing the single last unit is
claimed to behave like full removal, i.e. delete the OrderItem row and
detach it; the code only detaches — after the call the row still exists
with quantity 1 while the order's item list is empty. `remove_from_cart`
(true full removal) does delete the row. -/
theorem remove_single_last_unit_row_survives_cx :
    (remove_single_item_from_cart cartStore 1 "mug").1.orderItems
      = [{ id := 0, user := 1, itemSlug := "mug", quantity := 1, ordered := false }] ∧
    ((remove_single_item_from_cart cartStore 1 "mug").1.orderItems
      ≠ ([] : List OrderItem)) ∧
    (remove_single_item_from_cart cartStore 1 "mug").1.orders.map Order.items
      = [([] : List Nat)] ∧
    (remove_from_cart cartStore 1 "mug").1.orderItems = ([] : List OrderItem) := by
  refine ⟨rfl, by decide, rfl, rfl⟩

/-- Claim C6 (amended): with an active order whose item list carries the
slug and the unique unordered row `oi` for it: when `oi.quantity > 1` the
row's quantity is decremented by one; when `oi.quantity ≤ 1` the link is
removed from the order but the OrderItem row is NOT deleted — the row list
is unchanged (full deletion is what `remove_from_cart` does instead). -/
theorem remove_single_item_spec
    (s : Store) (u : Nat) (slug : String) (item : Item) (order : Order) (oi : OrderItem)
    (hitem : djGet (fun it => it.slug == slug) s.catalog = .found item)
    (hord : firstActiveOrder s u = some order)
    (hhas : orderHasSlug s order slug = true)
    (hoi : djGet (isUnorderedItemFor u slug) s.orderItems = .found oi) :
    (oi.quantity > 1 →
      remove_single_item_from_cart s u slug
        = (updateOrderItems s oi.id (fun x => { x with quantity := x.quantity - 1 }),
           .redirect "core:order-summary" "Item quantity updated")) ∧
    (oi.quantity ≤ 1 →
      (remove_single_item_from_cart s u slug
        = (updateOrders s order.id
            (fun o => { o with items := o.items.filter (fun i => i != oi.id) }),
           .redirect "core:order-summary" "Item quantity updated") ∧
       (remove_single_item_from_cart s u slug).1.orderItems = s.orderItems)) := by
  unfold remove_single_item_from_cart
  rw [hitem]
  dsimp only
  rw [hord]
  dsimp only
  rw [if_pos hhas, hoi]
  dsimp only
  constructor
  · intro hq
    rw [if_pos hq]
  · intro hq
    have hnq : ¬ (oi.quantity > 1) := by omega
    rw [if_neg hnq]
    exact ⟨rfl, rfl⟩

/-- Witness for the amended C6 on the quantity-2 cart. -/
theorem remove_single_item_spec_witness :
    (mugLine2.quantity > 1 →
      remove_single_item_from_cart cartStore2 1 "mug"
        = (updateOrderItems cartStore2 mugLine2.id
            (fun x => { x with quantity := x.quantity - 1 }),
           .redirect "core:order-summary" "Item quantity updated")) ∧
    (mugLine2.quantity ≤ 1 →
      (remove_single_item_from_cart cartStore2 1 "mug"
        = (updateOrders cartStore2 activeOrder1.id
            (fun o => { o with items := o.items.filter (fun i => i != mugLine2.id) }),
           .redirect "core:order-summary" "Item quantity updated") ∧
       (remove_single_item_from_cart cartStore2 1 "mug").1.orderItems
         = cartStore2.orderItems)) :=
  remove_single_item_spec cartStore2 1 "mug" mugItem activeOrder1 mugLine2
    (by decide) (by decide) (by decide) (by decide)

end BastaFerry
